import Mathlib

/-!
Verification of the access-control and endpoint logic of the yamdb_final
repository (src/api_yamdb/api/permissions.py and src/api_yamdb/api/views.py),
shallowly embedded in Lean 4.

HTTP requests are modelled by their method and acting principal; Django model
instances become Lean structures; the database becomes an explicit state record
threaded through each operation; raised exceptions become `Except` errors.
-/

namespace YaMDb

/-- HTTP request methods relevant to the API surface. -/
inductive Method where
  | get | head | options | post | put | patch | delete
deriving DecidableEq, Repr

/-- rest_framework.permissions.SAFE_METHODS: the read-only HTTP verbs. -/
def SAFE_METHODS : List Method := [.get, .head, .options]

/-- The acting principal of a request (`request.user`).  An anonymous principal
is a `User` with `is_authenticated = false`.  Per the spec the role determines
the derived predicates `is_admin` / `is_moderator` (the User model itself is
outside src/, only these predicates are consulted by the embedded code). -/
structure User where
  id : Nat
  username : String
  email : String
  is_authenticated : Bool
  is_admin : Bool
  is_moderator : Bool
deriving DecidableEq, Repr

/-- The dynamic type of a target object, as inspected by
`type(obj) == Comment or type(obj) == Review` in permissions.py.  Following the
spec's design note, the runtime type inspection becomes a tagged discriminant. -/
inductive ObjKind where
  | review | comment | title | category | genre | user
deriving DecidableEq, Repr

/-- A target object of an object-level permission check: its dynamic type and
its `author` attribute. -/
structure Obj where
  kind : ObjKind
  author : User
deriving DecidableEq, Repr

/-- permissions.py, IsAuthorOrReadOnlyPermission.has_permission:
`request.method in SAFE_METHODS or request.user.is_authenticated`. -/
def hasPermissionAuthorOrReadOnly (requestUser : User) (method : Method) : Bool :=
  SAFE_METHODS.contains method || requestUser.is_authenticated

/-- permissions.py, IsAuthorOrReadOnlyPermission.has_object_permission,
translated branch for branch from the source. -/
def hasObjectPermissionAuthorOrReadOnly
    (requestUser : User) (method : Method) (obj : Obj) : Bool :=
  if requestUser.is_authenticated && requestUser.is_admin then
    true
  else if (obj.kind == .comment || obj.kind == .review)
      && requestUser.is_authenticated
      && requestUser.is_moderator then
    true
  else
    obj.author == requestUser || SAFE_METHODS.contains method

/-- permissions.py, IsAdminPermission.has_permission:
`request.user.is_authenticated and request.user.is_admin`. -/
def hasPermissionIsAdmin (requestUser : User) : Bool :=
  requestUser.is_authenticated && requestUser.is_admin

/-- permissions.py, IsAdminOrReadOnly.has_permission: safe methods pass
unconditionally; otherwise authenticated admin is required. -/
def hasPermissionAdminOrReadOnly (requestUser : User) (method : Method) : Bool :=
  if SAFE_METHODS.contains method then
    true
  else
    requestUser.is_authenticated && requestUser.is_admin

/-- A User row as created by registration (`User(username=..., email=...)`);
the remaining model fields take their defaults and are irrelevant here. -/
structure RegUser where
  username : String
  email : String
deriving DecidableEq, Repr

/-- A ConfirmationCode row: owned by one user, holding the opaque code. -/
structure ConfirmationCodeRec where
  userName : String
  code : String
deriving DecidableEq, Repr

/-- An email actually delivered by the email channel. -/
structure EmailMessage where
  subject : String
  body : String
  recipient : String
deriving DecidableEq, Repr

/-- The persistent state touched by registration, together with the log of
emails the channel delivered. -/
structure RegState where
  users : List RegUser
  codes : List ConfirmationCodeRec
  sentEmails : List EmailMessage
deriving DecidableEq, Repr

/-- Errors a registration call can surface. -/
inductive RegError where
  | validationError | emailError
deriving DecidableEq, Repr

/-- Modelled from the spec: `RegistrationSerializer.is_valid` lives in
api/serializers.py, which is not under src/.  Spec: "validate uniqueness of
username and email; ... Fails with ValidationError if username/email already
taken or malformed."  Malformedness is kept minimal (both fields nonempty). -/
def registrationValid (st : RegState) (username email : String) : Bool :=
  username != "" && email != ""
    && st.users.all (fun u => u.username != username)
    && st.users.all (fun u => u.email != email)

/-- views.py, RegistrationView.post, with its two effect sources made explicit
parameters: `code` is the fresh `uuid.uuid4().hex` value and `emailOk` the
outcome of the email channel.  The source validates (raising on failure), then
saves the User, then saves the ConfirmationCode, then calls send_mail with
fail_silently=False; a channel failure raises after both saves and nothing in
the view undoes them. -/
def registrationPost (st : RegState) (username email code : String)
    (emailOk : Bool) : RegState × Except RegError Unit :=
  if registrationValid st username email then
    let user : RegUser := { username := username, email := email }
    let st1 := { st with users := st.users ++ [user] }
    let st2 := { st1 with
      codes := st1.codes ++ [{ userName := username, code := code }] }
    if emailOk then
      ({ st2 with sentEmails := st2.sentEmails
          ++ [{ subject := "Your confirmation code", body := code,
                recipient := email }] }, .ok ())
    else
      (st2, .error .emailError)
  else
    (st, .error .validationError)

/-- A persisted Review row (fields used by rating and creation). -/
structure ReviewRec where
  id : Nat
  titleId : Nat
  authorId : Nat
  score : Int
  text : String
deriving DecidableEq, Repr

/-- The Reviews related to a given Title, as traversed by the
`reviews__score` lookup in TitleViewSet.queryset. -/
def reviewsOf (reviews : List ReviewRec) (titleId : Nat) : List ReviewRec :=
  reviews.filter (fun r => r.titleId == titleId)

/-- views.py, TitleViewSet.queryset annotation `rating=Avg('reviews__score')`:
SQL Avg is NULL (none) over an empty set and the exact arithmetic mean
otherwise. -/
def titleRating (reviews : List ReviewRec) (titleId : Nat) : Option ℚ :=
  let rs := reviewsOf reviews titleId
  if rs.isEmpty then none
  else some (((rs.map (fun r => (r.score : ℚ))).sum) / rs.length)

/-- A persisted Title row (fields used by review creation). -/
structure TitleRec where
  id : Nat
  name : String
deriving DecidableEq, Repr

/-- Errors surfaced by the endpoint handlers. -/
inductive ApiError where
  | notFound | methodNotAllowed | forbidden | unauthorized
deriving DecidableEq, Repr

/-- django.shortcuts.get_object_or_404 specialised to a Title lookup by id. -/
def getTitleOr404 (titles : List TitleRec) (titleId : Nat) :
    Except ApiError TitleRec :=
  match titles.find? (fun t => t.id == titleId) with
  | some t => .ok t
  | none => .error .notFound

/-- The client-supplied body of a create-review request; `bodyAuthorId` and
`bodyTitleId` model author/title values a client might try to supply. -/
structure ReviewBody where
  text : String
  score : Int
  bodyAuthorId : Option Nat
  bodyTitleId : Option Nat
deriving DecidableEq, Repr

/-- The persistent state touched by review creation. -/
structure ReviewDb where
  titles : List TitleRec
  reviews : List ReviewRec
deriving DecidableEq, Repr

/-- views.py, ReviewViewSet.perform_create: resolve title_id from the URL path
(get_object_or_404, raising NotFound before any save) and then
`serializer.save(author=self.request.user, title=title)` — the author and
title keyword arguments override anything in the client body. -/
def reviewPerformCreate (db : ReviewDb) (titleId : Nat) (requestUserId : Nat)
    (body : ReviewBody) : ReviewDb × Except ApiError ReviewRec :=
  match getTitleOr404 db.titles titleId with
  | .error e => (db, .error e)
  | .ok t =>
      let r : ReviewRec := { id := db.reviews.length, titleId := t.id,
                             authorId := requestUserId, score := body.score,
                             text := body.text }
      ({ db with reviews := db.reviews ++ [r] }, .ok r)

/-- The actions a ModelViewSet routes detail/collection requests to;
patchUpdate stands for DRF's partial update, which delegates to update. -/
inductive ViewAction where
  | list | retrieve | create | update | patchUpdate | destroy
deriving DecidableEq, Repr

/-- The HTTP method the router maps to each action. -/
def actionMethod : ViewAction → Method
  | .list => .get
  | .retrieve => .get
  | .create => .post
  | .update => .put
  | .patchUpdate => .patch
  | .destroy => .delete

/-- Response statuses of the modelled endpoints. -/
inductive HttpStatus where
  | ok200 | created201 | noContent204 | unauthorized401 | forbidden403
  | notFound404 | methodNotAllowed405
deriving DecidableEq, Repr

/-- The dispatcher around views.py CategoriesViewSet: its permission class
IsAdminOrReadOnly is checked before the handler (a failed check yields 401 for
anonymous principals, 403 for authenticated ones); then the handler runs.
retrieve and update are overridden in the source to return 405, and DRF routes
partial update through update, so it returns 405 as well; list, create and
destroy keep their stock behaviour, abstracted to their success codes. -/
def categoriesDispatch (u : User) (a : ViewAction) : HttpStatus :=
  if ¬ hasPermissionAdminOrReadOnly u (actionMethod a) then
    if u.is_authenticated then .forbidden403 else .unauthorized401
  else
    match a with
    | .retrieve => .methodNotAllowed405
    | .update => .methodNotAllowed405
    | .patchUpdate => .methodNotAllowed405
    | .list => .ok200
    | .create => .created201
    | .destroy => .noContent204

/-- views.py, GenresViewSet subclasses CategoriesViewSet overriding only the
queryset and serializer class, so its dispatch behaviour is identical. -/
def genresDispatch (u : User) (a : ViewAction) : HttpStatus :=
  categoriesDispatch u a

/-- The permission classes UserViewSet.get_permissions can select. -/
inductive UserPermClass where
  | isAuthenticated | isAdminPermission
deriving DecidableEq, Repr

/-- views.py, UserViewSet.get_permissions: the "me" alias requires only
IsAuthenticated; every other route requires IsAdminPermission. -/
def userGetPermissions (kwargsUsername : Option String) : UserPermClass :=
  if kwargsUsername == some "me" then .isAuthenticated else .isAdminPermission

/-- Evaluation of the selected permission class against the principal. -/
def userPermAllows : UserPermClass → User → Bool
  | .isAuthenticated, u => u.is_authenticated
  | .isAdminPermission, u => hasPermissionIsAdmin u

/-- views.py, UserViewSet.get_object: on the "me" alias a DELETE raises
MethodNotAllowed and any other method resolves to the requesting principal;
otherwise the stock lookup by the username URL kwarg (404 when absent). -/
def userGetObject (kwargsUsername : Option String) (m : Method)
    (requestUser : User) (users : List User) : Except ApiError User :=
  if kwargsUsername == some "me" then
    if m == .delete then .error .methodNotAllowed
    else .ok requestUser
  else
    match kwargsUsername with
    | some uname =>
        match users.find? (fun u => u.username == uname) with
        | some u => .ok u
        | none => .error .notFound
    | none => .error .notFound

/-- The dispatcher around a UserViewSet detail request: the permission class
selected by get_permissions is checked first (401 anonymous / 403 otherwise on
failure), then get_object resolves the target. -/
def userDetailDispatch (uname : String) (m : Method) (requestUser : User)
    (users : List User) : Except ApiError User :=
  if ¬ userPermAllows (userGetPermissions (some uname)) requestUser then
    .error (if requestUser.is_authenticated then .forbidden else .unauthorized)
  else
    userGetObject (some uname) m requestUser users

end YaMDb

namespace YaMDb

/-- C2: for every request method and every target object, an authenticated
admin principal passes IsAuthorOrReadOnlyPermission.has_object_permission,
regardless of authorship and of the object's type. -/
theorem admin_always_passes_object_check
    (u : User) (m : Method) (obj : Obj)
    (hAuth : u.is_authenticated = true) (hAdmin : u.is_admin = true) :
    hasObjectPermissionAuthorOrReadOnly u m obj = true := by
  simp [hasObjectPermissionAuthorOrReadOnly, hAuth, hAdmin]

/-- Witness for C2: a concrete authenticated admin who is not the author of a
concrete Review passes the object-level check on an unsafe method. -/
theorem admin_always_passes_object_check_witness :
    ({ id := 1, username := "adm", email := "a@x", is_authenticated := true,
       is_admin := true, is_moderator := false } : User).is_authenticated = true
    ∧ hasObjectPermissionAuthorOrReadOnly
        { id := 1, username := "adm", email := "a@x", is_authenticated := true,
          is_admin := true, is_moderator := false }
        .delete
        { kind := .title,
          author := { id := 2, username := "bob", email := "b@x",
                      is_authenticated := false, is_admin := false,
                      is_moderator := false } } = true :=
  ⟨by decide,
   admin_always_passes_object_check _ .delete _ (by decide) (by decide)⟩

/-- C3: an authenticated moderator who is not an admin passes the object-level
check on every Review or Comment regardless of authorship; on any other object
type the moderator role grants nothing and the decision is exactly the
author-or-safe-method fallback. -/
theorem moderator_object_check
    (u : User) (m : Method) (obj : Obj)
    (hAuth : u.is_authenticated = true) (hMod : u.is_moderator = true)
    (hNotAdmin : u.is_admin = false) :
    ((obj.kind = .review ∨ obj.kind = .comment) →
      hasObjectPermissionAuthorOrReadOnly u m obj = true)
    ∧ (obj.kind ≠ .review → obj.kind ≠ .comment →
      hasObjectPermissionAuthorOrReadOnly u m obj
        = (obj.author == u || SAFE_METHODS.contains m)) := by
  constructor
  · intro hKind
    rcases hKind with h | h <;>
      simp [hasObjectPermissionAuthorOrReadOnly, hAuth, hMod, hNotAdmin, h]
  · intro hR hC
    have hck : (obj.kind == ObjKind.comment || obj.kind == ObjKind.review) = false := by
      cases hk : obj.kind <;> simp_all
    simp [hasObjectPermissionAuthorOrReadOnly, hAuth, hMod, hNotAdmin, hck]

/-- Witness for C3: a concrete authenticated moderator (not admin) passes on a
Review they did not author, and on a Title they did not author with an unsafe
method the fallback evaluates to false. -/
theorem moderator_object_check_witness :
    (({ id := 3, username := "mod", email := "m@x", is_authenticated := true,
        is_admin := false, is_moderator := true } : User).is_authenticated = true)
    ∧ hasObjectPermissionAuthorOrReadOnly
        { id := 3, username := "mod", email := "m@x", is_authenticated := true,
          is_admin := false, is_moderator := true }
        .delete
        { kind := .review,
          author := { id := 2, username := "bob", email := "b@x",
                      is_authenticated := false, is_admin := false,
                      is_moderator := false } } = true
    ∧ hasObjectPermissionAuthorOrReadOnly
        { id := 3, username := "mod", email := "m@x", is_authenticated := true,
          is_admin := false, is_moderator := true }
        .delete
        { kind := .title,
          author := { id := 2, username := "bob", email := "b@x",
                      is_authenticated := false, is_admin := false,
                      is_moderator := false } }
      = (({ kind := ObjKind.title,
            author := { id := 2, username := "bob", email := "b@x",
                        is_authenticated := false, is_admin := false,
                        is_moderator := false } } : Obj).author
          == { id := 3, username := "mod", email := "m@x",
               is_authenticated := true, is_admin := false,
               is_moderator := true }
          || SAFE_METHODS.contains .delete) :=
  ⟨by decide,
   (moderator_object_check _ .delete _ (by decide) (by decide) (by decide)).1
     (Or.inl rfl),
   (moderator_object_check _ .delete _ (by decide) (by decide) (by decide)).2
     (by decide) (by decide)⟩

/-- C4: IsAuthorOrReadOnlyPermission.has_permission allows a request iff the
method is safe or the principal is authenticated; in particular every
unsafe-method request by an unauthenticated principal is rejected. -/
theorem request_level_check_iff (u : User) (m : Method) :
    (hasPermissionAuthorOrReadOnly u m = true
      ↔ (SAFE_METHODS.contains m = true ∨ u.is_authenticated = true))
    ∧ (u.is_authenticated = false → SAFE_METHODS.contains m = false →
        hasPermissionAuthorOrReadOnly u m = false) := by
  constructor
  · simp [hasPermissionAuthorOrReadOnly]
  · intro hAnon hUnsafe
    simp only [hasPermissionAuthorOrReadOnly, hAnon, hUnsafe, Bool.or_false]

/-- Witness for C4: a concrete anonymous principal with a POST request is
rejected by the request-level check. -/
theorem request_level_check_iff_witness :
    hasPermissionAuthorOrReadOnly
      { id := 0, username := "", email := "", is_authenticated := false,
        is_admin := false, is_moderator := false } .post = false :=
  (request_level_check_iff
      { id := 0, username := "", email := "", is_authenticated := false,
        is_admin := false, is_moderator := false } .post).2
    (by decide) (by decide)

/-- C10: for every safe (read-only) method, the object-level check allows the
request for every principal and every object: read access is never denied at
the object level. -/
theorem safe_method_object_check_allows
    (u : User) (m : Method) (obj : Obj)
    (hSafe : SAFE_METHODS.contains m = true) :
    hasObjectPermissionAuthorOrReadOnly u m obj = true := by
  unfold hasObjectPermissionAuthorOrReadOnly
  split
  · rfl
  · split
    · rfl
    · simp only [Bool.or_eq_true]
      exact Or.inr hSafe

/-- Witness for C10: a concrete anonymous principal may GET a Review authored
by someone else. -/
theorem safe_method_object_check_allows_witness :
    hasObjectPermissionAuthorOrReadOnly
      { id := 0, username := "", email := "", is_authenticated := false,
        is_admin := false, is_moderator := false }
      .get
      { kind := .review,
        author := { id := 2, username := "bob", email := "b@x",
                    is_authenticated := false, is_admin := false,
                    is_moderator := false } } = true :=
  safe_method_object_check_allows _ .get _ (by decide)

/-- Counterexample to C1: registering "alice" in an empty store with a failing
email channel surfaces emailError, yet the User row and the ConfirmationCode
row created before the dispatch remain persisted — the operation partially
applies, contradicting the claim that nothing remains persisted. -/
theorem registration_email_failure_cex :
    (registrationPost { users := [], codes := [], sentEmails := [] }
        "alice" "alice@example.com" "c0de" false).2
      = Except.error RegError.emailError
    ∧ (registrationPost { users := [], codes := [], sentEmails := [] }
        "alice" "alice@example.com" "c0de" false).1.users
      = [{ username := "alice", email := "alice@example.com" }]
    ∧ (registrationPost { users := [], codes := [], sentEmails := [] }
        "alice" "alice@example.com" "c0de" false).1.codes
      = [{ userName := "alice", code := "c0de" }] :=
  ⟨rfl, rfl, rfl⟩

/-- C1 amended: on valid, non-duplicate input with a failing email channel,
Register surfaces an error and delivers no email, but it does partially
apply — the User and the ConfirmationCode saved before the email dispatch
remain persisted. -/
theorem registration_email_failure_behaviour
    (st : RegState) (username email code : String)
    (hValid : registrationValid st username email = true) :
    (registrationPost st username email code false).2
      = Except.error RegError.emailError
    ∧ (registrationPost st username email code false).1.users
        = st.users ++ [{ username := username, email := email }]
    ∧ (registrationPost st username email code false).1.codes
        = st.codes ++ [{ userName := username, code := code }]
    ∧ (registrationPost st username email code false).1.sentEmails
        = st.sentEmails := by
  simp [registrationPost, hValid]

/-- Witness for C1 (amended): the concrete run from the empty store. -/
theorem registration_email_failure_behaviour_witness :
    (registrationPost { users := [], codes := [], sentEmails := [] }
        "alice" "alice@example.com" "c0de" false).2
      = Except.error RegError.emailError
    ∧ (registrationPost { users := [], codes := [], sentEmails := [] }
        "alice" "alice@example.com" "c0de" false).1.users
        = [] ++ [{ username := "alice", email := "alice@example.com" }]
    ∧ (registrationPost { users := [], codes := [], sentEmails := [] }
        "alice" "alice@example.com" "c0de" false).1.codes
        = [] ++ [{ userName := "alice", code := "c0de" }]
    ∧ (registrationPost { users := [], codes := [], sentEmails := [] }
        "alice" "alice@example.com" "c0de" false).1.sentEmails
        = [] :=
  registration_email_failure_behaviour
    { users := [], codes := [], sentEmails := [] }
    "alice" "alice@example.com" "c0de" (by decide)

/-- C9: registering with a username that already belongs to a persisted User
is rejected with validationError and leaves the store untouched: no User, no
ConfirmationCode, no email. -/
theorem registration_duplicate_username_rejected
    (st : RegState) (username email code : String) (emailOk : Bool)
    (hTaken : ∃ u ∈ st.users, u.username = username) :
    registrationPost st username email code emailOk
      = (st, Except.error RegError.validationError) := by
  have hAll : st.users.all (fun u => u.username != username) = false := by
    rw [List.all_eq_false]
    rcases hTaken with ⟨u, hu, hname⟩
    exact ⟨u, hu, by simp [hname]⟩
  have hInvalid : registrationValid st username email = false := by
    simp [registrationValid, hAll]
  simp [registrationPost, hInvalid]

/-- Witness for C9: re-registering "bob" against a store already holding a
user named "bob" is rejected and the store is returned unchanged. -/
theorem registration_duplicate_username_rejected_witness :
    registrationPost
        { users := [{ username := "bob", email := "bob@example.com" }],
          codes := [], sentEmails := [] }
        "bob" "new@example.com" "c0de" true
      = ({ users := [{ username := "bob", email := "bob@example.com" }],
           codes := [], sentEmails := [] },
         Except.error RegError.validationError) :=
  registration_duplicate_username_rejected _ "bob" "new@example.com" "c0de" true
    ⟨{ username := "bob", email := "bob@example.com" }, by simp, rfl⟩

/-- C5: the rating annotation is none for a Title with no reviews, is the
exact arithmetic mean of the related scores otherwise, and evaluates to 8 on
a Title whose reviews score 7 and 9. -/
theorem title_rating_is_mean (reviews : List ReviewRec) (titleId : Nat) :
    (reviewsOf reviews titleId = [] → titleRating reviews titleId = none)
    ∧ (reviewsOf reviews titleId ≠ [] →
        titleRating reviews titleId
          = some (((reviewsOf reviews titleId).map
              (fun r => (r.score : ℚ))).sum / (reviewsOf reviews titleId).length))
    ∧ titleRating
        [{ id := 1, titleId := 1, authorId := 10, score := 7, text := "a" },
         { id := 2, titleId := 1, authorId := 11, score := 9, text := "b" }] 1
      = some 8 := by
  refine ⟨?_, ?_, ?_⟩
  · intro h
    simp [titleRating, h]
  · intro h
    simp [titleRating, h]
  · show (if ([(7 : ℚ), 9] : List ℚ).isEmpty then none
        else some (((7 : ℚ) + (9 + 0)) / (2 : Nat))) = some 8
    norm_num

/-- Witness for C5: the empty review store gives a none rating, and the
concrete [7, 9] Title rates 8. -/
theorem title_rating_is_mean_witness :
    titleRating [] 1 = none
    ∧ titleRating
        [{ id := 1, titleId := 1, authorId := 10, score := 7, text := "a" },
         { id := 2, titleId := 1, authorId := 11, score := 9, text := "b" }] 1
      = some 8 :=
  ⟨(title_rating_is_mean [] 1).1 rfl, (title_rating_is_mean [] 1).2.2⟩

/-- C6: creating a Review under a title id that resolves to no Title fails
with notFound and persists nothing; when the Title exists, the persisted
Review's author and title come from the request principal and the URL path,
never from the client body. -/
theorem review_create_resolves_title
    (db : ReviewDb) (titleId requestUserId : Nat) (body : ReviewBody) :
    (db.titles.find? (fun t => t.id == titleId) = none →
      reviewPerformCreate db titleId requestUserId body
        = (db, Except.error ApiError.notFound))
    ∧ (∀ t, db.titles.find? (fun t0 => t0.id == titleId) = some t →
        ∃ r, reviewPerformCreate db titleId requestUserId body
            = ({ db with reviews := db.reviews ++ [r] }, Except.ok r)
          ∧ r.authorId = requestUserId ∧ r.titleId = titleId) := by
  constructor
  · intro hNone
    simp [reviewPerformCreate, getTitleOr404, hNone]
  · intro t hFind
    have hid : t.id = titleId := by
      have := List.find?_some hFind
      simpa using this
    refine ⟨{ id := db.reviews.length, titleId := t.id,
              authorId := requestUserId, score := body.score,
              text := body.text }, ?_, rfl, hid⟩
    simp [reviewPerformCreate, getTitleOr404, hFind]

/-- Witness for C6: with no Titles persisted, creating a review under title id
5 returns notFound and the store is unchanged, even though the client body
tries to supply its own author and title. -/
theorem review_create_resolves_title_witness :
    reviewPerformCreate { titles := [], reviews := [] } 5 7
        { text := "t", score := 3, bodyAuthorId := some 99,
          bodyTitleId := some 42 }
      = ({ titles := [], reviews := [] }, Except.error ApiError.notFound) :=
  (review_create_resolves_title { titles := [], reviews := [] } 5 7
      { text := "t", score := 3, bodyAuthorId := some 99,
        bodyTitleId := some 42 }).1 rfl

/-- Counterexample to C7: an anonymous principal's update request on a single
Category is rejected by the IsAdminOrReadOnly permission check with 401, not
with method-not-allowed 405, so "returns 405 for every principal" fails. -/
theorem category_update_anonymous_cex :
    categoriesDispatch
        { id := 0, username := "", email := "", is_authenticated := false,
          is_admin := false, is_moderator := false } .update
      = HttpStatus.unauthorized401
    ∧ HttpStatus.unauthorized401 ≠ HttpStatus.methodNotAllowed405 := by
  decide

/-- C7 amended: retrieving a single Category or Genre returns 405 for every
principal; update and partial update return 405 for every principal that
passes the admin-or-read-only gate (in particular every admin), while
non-admin write requests are rejected by the permission check before the
handler; hence only list, create and destroy can ever succeed. -/
theorem category_genre_detail_disabled (u : User) :
    categoriesDispatch u .retrieve = HttpStatus.methodNotAllowed405
    ∧ genresDispatch u .retrieve = HttpStatus.methodNotAllowed405
    ∧ (u.is_authenticated = true → u.is_admin = true →
        categoriesDispatch u .update = HttpStatus.methodNotAllowed405
        ∧ categoriesDispatch u .patchUpdate = HttpStatus.methodNotAllowed405
        ∧ genresDispatch u .update = HttpStatus.methodNotAllowed405
        ∧ genresDispatch u .patchUpdate = HttpStatus.methodNotAllowed405)
    ∧ ∀ a, (categoriesDispatch u a = HttpStatus.ok200
            ∨ categoriesDispatch u a = HttpStatus.created201
            ∨ categoriesDispatch u a = HttpStatus.noContent204) →
        (a = ViewAction.list ∨ a = ViewAction.create ∨ a = ViewAction.destroy) := by
  obtain ⟨i, un, em, auth, adm, md⟩ := u
  refine ⟨rfl, rfl, ?_, ?_⟩
  · intro h1 h2
    subst h1
    subst h2
    exact ⟨rfl, rfl, rfl, rfl⟩
  · intro a h
    cases auth <;> cases adm <;> cases a <;>
      first
        | exact Or.inl rfl
        | exact Or.inr (Or.inl rfl)
        | exact Or.inr (Or.inr rfl)
        | (rcases h with h | h | h <;> exact HttpStatus.noConfusion h)

/-- Witness for C7 (amended): a concrete admin's retrieve, update and partial
update on Categories all come back 405. -/
theorem category_genre_detail_disabled_witness :
    categoriesDispatch
        { id := 1, username := "adm", email := "a@x", is_authenticated := true,
          is_admin := true, is_moderator := false } .retrieve
      = HttpStatus.methodNotAllowed405
    ∧ categoriesDispatch
        { id := 1, username := "adm", email := "a@x", is_authenticated := true,
          is_admin := true, is_moderator := false } .update
      = HttpStatus.methodNotAllowed405
    ∧ categoriesDispatch
        { id := 1, username := "adm", email := "a@x", is_authenticated := true,
          is_admin := true, is_moderator := false } .patchUpdate
      = HttpStatus.methodNotAllowed405 :=
  ⟨(category_genre_detail_disabled
      { id := 1, username := "adm", email := "a@x", is_authenticated := true,
        is_admin := true, is_moderator := false }).1,
   ((category_genre_detail_disabled
      { id := 1, username := "adm", email := "a@x", is_authenticated := true,
        is_admin := true, is_moderator := false }).2.2.1 rfl rfl).1,
   ((category_genre_detail_disabled
      { id := 1, username := "adm", email := "a@x", is_authenticated := true,
        is_admin := true, is_moderator := false }).2.2.1 rfl rfl).2.1⟩

/-- C8: for every authenticated principal, whatever its role, a DELETE on the
"me" alias is rejected with MethodNotAllowed, and any other method on "me"
passes the IsAuthenticated permission and resolves to the requesting
principal itself. -/
theorem me_alias_behaviour (u : User) (m : Method) (users : List User)
    (hAuth : u.is_authenticated = true) :
    userDetailDispatch "me" .delete u users
      = Except.error ApiError.methodNotAllowed
    ∧ (m ≠ .delete → userDetailDispatch "me" m u users = Except.ok u) := by
  constructor
  · simp [userDetailDispatch, userGetPermissions, userPermAllows, hAuth,
          userGetObject]
  · intro hm
    simp [userDetailDispatch, userGetPermissions, userPermAllows, hAuth,
          userGetObject, hm]

/-- Witness for C8: a concrete authenticated regular user (neither admin nor
moderator) gets 405 on DELETE "me" and themselves back on GET "me". -/
theorem me_alias_behaviour_witness :
    userDetailDispatch "me" .delete
        { id := 4, username := "eve", email := "e@x", is_authenticated := true,
          is_admin := false, is_moderator := false } []
      = Except.error ApiError.methodNotAllowed
    ∧ userDetailDispatch "me" .get
        { id := 4, username := "eve", email := "e@x", is_authenticated := true,
          is_admin := false, is_moderator := false } []
      = Except.ok
        { id := 4, username := "eve", email := "e@x", is_authenticated := true,
          is_admin := false, is_moderator := false } :=
  ⟨(me_alias_behaviour
      { id := 4, username := "eve", email := "e@x", is_authenticated := true,
        is_admin := false, is_moderator := false } .get [] (by decide)).1,
   (me_alias_behaviour
      { id := 4, username := "eve", email := "e@x", is_authenticated := true,
        is_admin := false, is_moderator := false } .get [] (by decide)).2
     (by decide)⟩

end YaMDb
